import Mathlib

/-!
Shallow embedding of the Pacts schema-validation library
(src/rust/src/core/validator.rs, src/rust/src/core/schema_loader.rs,
src/rust/src/model/header.rs, src/rust/src/model/envelope.rs).

JSON documents (serde_json::Value) are modelled by an inductive `Value`;
the numeric payload is abstracted to `Int` (no claim inspects numeric
values, only their kind).  serde_json object maps are modelled as
association lists; `Value.get` is first-match key lookup, as in the
library.  Rust panics are modelled as `Except.error` carrying the panic
message; `&mut self` methods return the updated state.  The file-system
and embedded-asset reads performed by `load_schema_internal` are
abstracted into a `SchemaSource` parameter: `source category name` is
`some schema` exactly when a schema document exists (on disk or embedded)
at `root/domain/version/category/name.json`, and `none` when no schema
exists at those coordinates.
-/

namespace Pacts

/-- JSON values as in serde_json: null, booleans, numbers (payload
abstracted to `Int`), strings, arrays, and objects as association lists. -/
inductive Value where
  | null : Value
  | bool : Bool → Value
  | num : Int → Value
  | str : String → Value
  | arr : List Value → Value
  | obj : List (String × Value) → Value

/-- serde_json `Value::get` with a string key: key lookup on objects,
`None` on every other variant. -/
def Value.get (v : Value) (key : String) : Option Value :=
  match v with
  | .obj fields => fields.lookup key
  | _ => none

/-- serde_json `Value::is_object`. -/
def Value.is_object : Value → Bool
  | .obj _ => true
  | _ => false

/-- serde_json `Value::is_array`. -/
def Value.is_array : Value → Bool
  | .arr _ => true
  | _ => false

/-- serde_json `Value::is_string`. -/
def Value.is_string : Value → Bool
  | .str _ => true
  | _ => false

/-- serde_json `Value::is_number`. -/
def Value.is_number : Value → Bool
  | .num _ => true
  | _ => false

/-- serde_json `Value::is_boolean`. -/
def Value.is_boolean : Value → Bool
  | .bool _ => true
  | _ => false

/-- serde_json `Value::is_null`. -/
def Value.is_null : Value → Bool
  | .null => true
  | _ => false

/-- serde_json `Value::as_str`. -/
def Value.as_str : Value → Option String
  | .str s => some s
  | _ => none

/-- serde_json `Value::as_array`. -/
def Value.as_array : Value → Option (List Value)
  | .arr xs => some xs
  | _ => none

/-- serde_json `Value::as_object`. -/
def Value.as_object : Value → Option (List (String × Value))
  | .obj fields => some fields
  | _ => none

/-- Header (model/header.rs): schema_version, schema_category, schema_name,
a timestamp (abstracted to `Nat`), and an optional content type. -/
structure Header where
  schema_version : String
  schema_category : String
  schema_name : String
  timestamp : Nat
  content_type : Option String

/-- Envelope (model/envelope.rs): header, payload data, optional metadata. -/
structure Envelope where
  header : Header
  data : Value
  metadata : Option (List (String × Value))

/-- ValidationResult (core/validator.rs): validity flag and ordered error list. -/
structure ValidationResult where
  valid : Bool
  errors : List String
deriving DecidableEq

/-- `ValidationResult::new`. -/
def ValidationResult.new (valid : Bool) (errors : List String) : ValidationResult :=
  { valid := valid, errors := errors }

/-- `ValidationResult::success`. -/
def ValidationResult.success : ValidationResult :=
  { valid := true, errors := [] }

/-- `ValidationResult::failure`. -/
def ValidationResult.failure (errors : List String) : ValidationResult :=
  { valid := false, errors := errors }

/-- `ValidationResult::is_valid`. -/
def ValidationResult.is_valid (r : ValidationResult) : Bool :=
  r.valid

/-- `ValidationResult::get_errors`. -/
def ValidationResult.get_errors (r : ValidationResult) : List String :=
  r.errors

/-- `ValidationResult::has_errors`. -/
def ValidationResult.has_errors (r : ValidationResult) : Bool :=
  !r.errors.isEmpty

/-- `ValidationResult::error_message`. -/
def ValidationResult.error_message (r : ValidationResult) : String :=
  if r.errors.isEmpty then "Validation successful"
  else String.intercalate "; " r.errors

/-- SchemaLoader state (core/schema_loader.rs): the schema cache (a
HashMap, modelled as an association list) and the three construction
parameters. -/
structure SchemaLoader where
  schema_cache : List (String × Value)
  schema_root : String
  domain : String
  version : String

/-- Abstraction of the I/O environment consulted by
`SchemaLoader::load_schema_internal`: `source category name` is the parsed
schema document found on the file system (or, failing that, among the
embedded resources) at `root/domain/version/category/name.json`, and
`none` when no schema document exists at those coordinates. -/
def SchemaSource : Type :=
  String → String → Option Value

/-- `SchemaLoader::new`: panics (modelled as `Except.error`) when any of
the three construction parameters is empty. -/
def SchemaLoader.new (schema_root domain version : String) :
    Except String SchemaLoader :=
  if schema_root.isEmpty || domain.isEmpty || version.isEmpty then
    Except.error "Schema root, domain, and version must be specified."
  else
    Except.ok
      { schema_cache := [], schema_root := schema_root,
        domain := domain, version := version }

/-- `SchemaLoader::get_schema_root`. -/
def SchemaLoader.get_schema_root (l : SchemaLoader) : String :=
  l.schema_root

/-- `SchemaLoader::get_domain`. -/
def SchemaLoader.get_domain (l : SchemaLoader) : String :=
  l.domain

/-- `SchemaLoader::get_version`. -/
def SchemaLoader.get_version (l : SchemaLoader) : String :=
  l.version

/-- `SchemaLoader::load_schema_internal`: file system first, then embedded
resources (both abstracted into `source`); when neither holds a schema the
result is the error used by the Rust code. -/
def SchemaLoader.load_schema_internal (l : SchemaLoader) (source : SchemaSource)
    (category name : String) : Except String Value :=
  match source category name with
  | some schema => Except.ok schema
  | none =>
      Except.error ("Schema not found: " ++ l.domain ++ "/" ++ l.version ++ "/"
        ++ category ++ "/" ++ name ++ ".json")

/-- `SchemaLoader::load_schema`: cache lookup first; on a miss the loader
re-resolves through `load_schema_internal`, caching a success and panicking
(modelled as `Except.error` with the panic message) on failure.  The
`&mut self` receiver is modelled by returning the updated loader. -/
def SchemaLoader.load_schema (l : SchemaLoader) (source : SchemaSource)
    (category name : String) : Except String (Value × SchemaLoader) :=
  let cache_key := l.domain ++ "/" ++ l.version ++ "/" ++ category ++ "/" ++ name
  match l.schema_cache.lookup cache_key with
  | some schema => Except.ok (schema, l)
  | none =>
      match l.load_schema_internal source category name with
      | Except.ok schema =>
          Except.ok (schema, { l with schema_cache := (cache_key, schema) :: l.schema_cache })
      | Except.error e =>
          Except.error ("Failed to load schema: " ++ l.domain ++ "/" ++ l.version
            ++ "/" ++ category ++ "/" ++ name ++ " - " ++ e)

/-- `SchemaLoader::clear_cache`: empties the cache and changes nothing else. -/
def SchemaLoader.clear_cache (l : SchemaLoader) : SchemaLoader :=
  { l with schema_cache := [] }

/-- `Validator::validate_type`: immediate-kind check of a value against an
expected type string; any string outside the six known types is satisfied. -/
def validate_type (data : Value) (expected_type : String) : Bool :=
  match expected_type with
  | "object" => data.is_object
  | "array" => data.is_array
  | "string" => data.is_string
  | "number" => data.is_number
  | "boolean" => data.is_boolean
  | "null" => data.is_null
  | _ => true

/-- `Validator::validate_required_fields`: the errors pushed for entries of
the schema's `required` array (non-string entries are skipped). -/
def validate_required_fields (data schema : Value) : List String :=
  match schema.get "required" with
  | some required_fields =>
      match required_fields.as_array with
      | some required_array =>
          required_array.filterMap (fun field =>
            match field.as_str with
            | some field_name =>
                if (data.get field_name).isSome then none
                else some ("Required field missing: " ++ field_name)
            | none => none)
      | none => []
  | none => []

/-- `Validator::validate_type_schema`: the error pushed when the schema
declares a top-level string `type` that the data's kind does not match. -/
def validate_type_schema (data schema : Value) : List String :=
  match schema.get "type" with
  | some type_value =>
      match type_value.as_str with
      | some expected_type =>
          if validate_type data expected_type then []
          else ["Invalid type. Expected: " ++ expected_type]
      | none => []
  | none => []

/-- `Validator::validate_property_type`: the error pushed for one declared
property, consulting only the property schema's own `type` and the
immediate kind of the corresponding value in the data. -/
def validate_property_type (data : Value) (property_name : String)
    (property_schema : Value) : List String :=
  match property_schema.get "type" with
  | some property_type =>
      match property_type.as_str with
      | some expected_type =>
          match data.get property_name with
          | some property_value =>
              if validate_type property_value expected_type then []
              else
                ["Invalid type for field \x27" ++ property_name
                  ++ "\x27. Expected: " ++ expected_type]
          | none => []
      | none => []
  | none => []

/-- `Validator::validate_properties`: iterates the schema's `properties`
object and checks each property present in the data. -/
def validate_properties (data schema : Value) : List String :=
  match schema.get "properties" with
  | some properties =>
      if data.is_object && properties.is_object then
        match properties.as_object with
        | some properties_obj =>
            (properties_obj.map (fun pr =>
              if (data.get pr.1).isSome then
                validate_property_type data pr.1 pr.2
              else [])).flatten
        | none => []
      else []
  | none => []

/-- `Validator::validate_data`: accumulates required-field, top-level type
and per-property errors, and returns a result valid exactly when the
accumulated list is empty. -/
def validate_data (data schema : Value) : ValidationResult :=
  let errors := validate_required_fields data schema
    ++ validate_type_schema data schema
    ++ validate_properties data schema
  ValidationResult.new errors.isEmpty errors

/-- `Validator::validate`: header-presence check, per-field header checks,
then schema load and structural validation when category and name are both
non-empty.  The validator's interior-mutable loader is threaded through
explicitly; a panic inside `load_schema` propagates as `Except.error`. -/
def validate (l : SchemaLoader) (source : SchemaSource) (envelope : Envelope) :
    Except String (ValidationResult × SchemaLoader) :=
  if envelope.header.schema_category.isEmpty
      && envelope.header.schema_name.isEmpty
      && envelope.header.schema_version.isEmpty then
    Except.ok (ValidationResult.new false ["Header is required"], l)
  else
    let errors : List String :=
      (if envelope.header.schema_category.isEmpty then
        ["Schema category is required in header"] else [])
      ++ (if envelope.header.schema_name.isEmpty then
        ["Schema name is required in header"] else [])
      ++ (if envelope.header.schema_version.isEmpty then
        ["Schema version is required in header"] else [])
    if !envelope.header.schema_category.isEmpty
        && !envelope.header.schema_name.isEmpty then
      match l.load_schema source envelope.header.schema_category
          envelope.header.schema_name with
      | Except.ok (schema, l2) =>
          let data_validation := validate_data envelope.data schema
          let errors := errors ++ data_validation.get_errors
          Except.ok (ValidationResult.new errors.isEmpty errors, l2)
      | Except.error e => Except.error e
    else
      Except.ok (ValidationResult.new errors.isEmpty errors, l)

/-- Concrete loader used to instantiate general theorems: the parameters of
the repository's own tests (schemas/bees/v1), with an empty cache. -/
def exampleLoader : SchemaLoader :=
  { schema_cache := [], schema_root := "schemas", domain := "bees", version := "v1" }

/-- Concrete loader whose cache already holds the player_request schema,
as it is after one successful `load_schema` from `exampleLoader`. -/
def cachedLoader : SchemaLoader :=
  { schema_cache := [("bees/v1/player/player_request", Value.obj [])],
    schema_root := "schemas", domain := "bees", version := "v1" }

/-- Concrete source environment holding exactly one schema document,
at category player and name player_request. -/
def exampleSource : SchemaSource :=
  fun category name =>
    if category = "player" ∧ name = "player_request" then some (Value.obj [])
    else none

/-- Source environment holding no schema documents at all. -/
def emptySource : SchemaSource :=
  fun _ _ => none

/-- Concrete envelope whose header names the player_request schema. -/
def exampleEnvelope : Envelope :=
  ⟨⟨"v1", "player", "player_request", 0, none⟩, Value.obj [], none⟩

/-- Concrete envelope whose header identity fields are all empty. -/
def emptyHeaderEnvelope : Envelope :=
  ⟨⟨"", "", "", 0, none⟩, Value.obj [], none⟩

/-- Concrete envelope with a non-empty category but empty name and version. -/
def partialHeaderEnvelope : Envelope :=
  ⟨⟨"", "player", "", 0, none⟩, Value.obj [], none⟩

/-- Concrete envelope whose header names a schema absent from exampleSource. -/
def missingSchemaEnvelope : Envelope :=
  ⟨⟨"v2", "inventory", "inventory_item", 0, none⟩, Value.obj [], none⟩

/-- Concrete schema declaring type object with required field id. -/
def requiredIdSchema : Value :=
  Value.obj [("type", Value.str "object"), ("required", Value.arr [Value.str "id"])]

/- ------------------------------------------------------------------ -/
/- Helper lemmas -/
/- ------------------------------------------------------------------ -/

/-- Two string concatenations differ whenever their left parts differ at a
character position inside both left parts. -/
theorem string_append_ne_of_index (a b x y : String) (i : Nat)
    (ha : i < a.data.length) (hb : i < b.data.length)
    (h : a.data[i]? ≠ b.data[i]?) : a ++ x ≠ b ++ y := by
  intro heq
  apply h
  have hd : a.data ++ x.data = b.data ++ y.data := by
    have h2 := congrArg String.data heq
    rwa [String.data_append, String.data_append] at h2
  calc a.data[i]? = (a.data ++ x.data)[i]? := (List.getElem?_append_left ha).symm
    _ = (b.data ++ y.data)[i]? := by rw [hd]
    _ = b.data[i]? := List.getElem?_append_left hb

/-- Left cancellation for string concatenation. -/
theorem string_append_left_cancel {a x y : String} (h : a ++ x = a ++ y) : x = y := by
  apply String.ext
  have h2 := congrArg String.data h
  rw [String.data_append, String.data_append] at h2
  exact List.append_cancel_left h2

/-- Every error produced by the required-fields check names a field that the
data lacks, with the fixed message shape of the source. -/
theorem mem_validate_required_fields {msg : String} {d s : Value}
    (h : msg ∈ validate_required_fields d s) :
    ∃ f, msg = "Required field missing: " ++ f ∧ d.get f = none := by
  unfold validate_required_fields at h
  split at h
  · split at h
    · rcases List.mem_filterMap.1 h with ⟨field, _, hfn⟩
      split at hfn
      · split at hfn
        · exact absurd hfn (by simp)
        · rename_i field_name _ hcond
          refine ⟨field_name, (Option.some.inj hfn).symm, ?_⟩
          exact Option.not_isSome_iff_eq_none.1 (by simpa using hcond)
      · exact absurd hfn (by simp)
    · exact absurd h (by simp)
  · exact absurd h (by simp)

/-- Every error produced by the top-level type check has the fixed message
shape of the source. -/
theorem mem_validate_type_schema {msg : String} {d s : Value}
    (h : msg ∈ validate_type_schema d s) :
    ∃ et, msg = "Invalid type. Expected: " ++ et := by
  unfold validate_type_schema at h
  split at h
  · split at h
    · split at h
      · exact absurd h (by simp)
      · exact ⟨_, (List.mem_singleton.1 h)⟩
    · exact absurd h (by simp)
  · exact absurd h (by simp)

/-- Every error produced by the per-property check has the fixed message
shape of the source. -/
theorem mem_validate_property_type {msg : String} {d : Value} {p : String}
    {ps : Value} (h : msg ∈ validate_property_type d p ps) :
    ∃ rest, msg = "Invalid type for field \x27" ++ rest := by
  unfold validate_property_type at h
  rcases hpt : ps.get "type" with _ | pt
  · simp [hpt] at h
  · simp only [hpt] at h
    rcases hes : pt.as_str with _ | et
    · simp [hes] at h
    · simp only [hes] at h
      rcases hdv : d.get p with _ | pv
      · simp [hdv] at h
      · simp only [hdv] at h
        split at h
        · exact absurd h (by simp)
        · rw [List.mem_singleton] at h
          subst h
          exact ⟨p ++ ("\x27. Expected: " ++ et), by
            rw [String.append_assoc, String.append_assoc]⟩

/-- Every error produced by the properties iteration has the fixed
per-property message shape. -/
theorem mem_validate_properties {msg : String} {d s : Value}
    (h : msg ∈ validate_properties d s) :
    ∃ rest, msg = "Invalid type for field \x27" ++ rest := by
  unfold validate_properties at h
  split at h
  · split at h
    · split at h
      · rcases List.mem_flatten.1 h with ⟨l, hl, hml⟩
        rcases List.mem_map.1 hl with ⟨pr, _, hpr⟩
        by_cases hc : (d.get pr.1).isSome = true
        · rw [← hpr, if_pos hc] at hml
          exact mem_validate_property_type hml
        · rw [← hpr, if_neg hc] at hml
          exact absurd hml (by simp)
      · exact absurd h (by simp)
    · exact absurd h (by simp)
  · exact absurd h (by simp)

/- ------------------------------------------------------------------ -/
/- Claim theorems -/
/- ------------------------------------------------------------------ -/

/-- C1 (counterexample): with both category and name non-empty and no schema
at those coordinates, `validate` does not return a ValidationResult at all:
it propagates the panic of `load_schema` (modelled as `Except.error`),
contradicting the claim that a schema miss is surfaced as a
ValidationResult error and is never a process-level failure. -/
theorem validate_missing_schema_no_result :
    validate exampleLoader emptySource exampleEnvelope =
      Except.error "Failed to load schema: bees/v1/player/player_request - Schema not found: bees/v1/player/player_request.json" :=
  rfl

/-- C1 (amended): for every envelope whose header category and name are
non-empty, if no schema exists at those coordinates (neither cached nor
provided by the file-system/embedded source), `validate` aborts the
process: `load_schema` panics with a message embedding
domain/version/category/name, no ValidationResult is produced, and no
structural check is attempted. -/
theorem validate_missing_schema_aborts (l : SchemaLoader) (S : SchemaSource)
    (e : Envelope) (hc : e.header.schema_category ≠ "")
    (hn : e.header.schema_name ≠ "")
    (hcache : l.schema_cache.lookup (l.domain ++ "/" ++ l.version ++ "/"
      ++ e.header.schema_category ++ "/" ++ e.header.schema_name) = none)
    (hs : S e.header.schema_category e.header.schema_name = none) :
    validate l S e = Except.error ("Failed to load schema: " ++ l.domain
      ++ "/" ++ l.version ++ "/" ++ e.header.schema_category ++ "/"
      ++ e.header.schema_name ++ " - " ++ ("Schema not found: " ++ l.domain
      ++ "/" ++ l.version ++ "/" ++ e.header.schema_category ++ "/"
      ++ e.header.schema_name ++ ".json")) := by
  have hc2 : e.header.schema_category.isEmpty = false := by
    rcases h : e.header.schema_category.isEmpty
    · rfl
    · exact absurd ((String.isEmpty_iff _).1 h) hc
  have hn2 : e.header.schema_name.isEmpty = false := by
    rcases h : e.header.schema_name.isEmpty
    · rfl
    · exact absurd ((String.isEmpty_iff _).1 h) hn
  simp [validate, SchemaLoader.load_schema, SchemaLoader.load_schema_internal,
    hc2, hn2, hcache, hs]

/-- C1 (witness): the amended theorem instantiated at a concrete envelope
whose schema coordinates resolve nowhere. -/
theorem validate_missing_schema_aborts_w :
    validate exampleLoader exampleSource missingSchemaEnvelope =
      Except.error "Failed to load schema: bees/v1/inventory/inventory_item - Schema not found: bees/v1/inventory/inventory_item.json" :=
  validate_missing_schema_aborts exampleLoader exampleSource
    missingSchemaEnvelope (by decide) (by decide) rfl rfl

/-- C2 (counterexample): a key that previously resolved successfully is
loaded again after `clear_cache()`, and the load succeeds by re-resolving
from the source instead of reporting SchemaNotFound. -/
theorem clear_cache_reload_succeeds :
    exampleLoader.load_schema exampleSource "player" "player_request" =
      Except.ok (Value.obj [], cachedLoader) ∧
    cachedLoader.clear_cache.load_schema exampleSource "player" "player_request" =
      Except.ok (Value.obj [], cachedLoader) :=
  ⟨rfl, rfl⟩

/-- C2 (amended): `clear_cache()` only empties the cache; a subsequent
`load_schema` re-resolves from the file-system/embedded source on the cache
miss, so a previously resolved key loads successfully again whenever the
source still provides a schema document for it (and panics, rather than
reporting a recoverable SchemaNotFound, only when it does not). -/
theorem load_after_clear_cache_reresolves (l : SchemaLoader) (S : SchemaSource)
    (category name : String) (v : Value) (hs : S category name = some v) :
    l.clear_cache.load_schema S category name =
      Except.ok (v, { l.clear_cache with schema_cache :=
        [(l.domain ++ "/" ++ l.version ++ "/" ++ category ++ "/" ++ name, v)] }) := by
  simp [SchemaLoader.clear_cache, SchemaLoader.load_schema,
    SchemaLoader.load_schema_internal, hs]

/-- C2 (witness): the amended theorem instantiated at a concrete loader and
source. -/
theorem load_after_clear_cache_reresolves_w :
    exampleLoader.clear_cache.load_schema exampleSource "player" "player_request" =
      Except.ok (Value.obj [], { exampleLoader.clear_cache with schema_cache :=
        [(exampleLoader.domain ++ "/" ++ exampleLoader.version ++ "/"
          ++ "player" ++ "/" ++ "player_request", Value.obj [])] }) :=
  load_after_clear_cache_reresolves exampleLoader exampleSource
    "player" "player_request" (Value.obj []) rfl

/-- C3 (counterexample): with an entirely empty header the single error the
code produces is the string with a capital H, not the claimed lower-case
"header is required". -/
theorem empty_header_message_case :
    validate exampleLoader emptySource emptyHeaderEnvelope =
      Except.ok (ValidationResult.new false ["Header is required"], exampleLoader) ∧
    (["Header is required"] : List String) ≠ ["header is required"] :=
  ⟨rfl, by decide⟩

/-- C3 (amended): for every envelope whose header identity fields are all
empty strings, `validate` returns immediately an invalid ValidationResult
containing exactly one error, "Header is required"; the loader is returned
untouched, so no schema lookup and no other header-field check happens. -/
theorem validate_all_empty_header (l : SchemaLoader) (S : SchemaSource)
    (e : Envelope) (h1 : e.header.schema_category = "")
    (h2 : e.header.schema_name = "") (h3 : e.header.schema_version = "") :
    validate l S e =
      Except.ok (ValidationResult.new false ["Header is required"], l) := by
  have he : ("" : String).isEmpty = true := rfl
  simp [validate, h1, h2, h3, he]

/-- C3 (witness): the amended theorem instantiated at a concrete loader and
the all-empty-header envelope. -/
theorem validate_all_empty_header_w :
    validate cachedLoader exampleSource emptyHeaderEnvelope =
      Except.ok (ValidationResult.new false ["Header is required"], cachedLoader) :=
  validate_all_empty_header cachedLoader exampleSource emptyHeaderEnvelope
    rfl rfl rfl

/-- C9: constructing a SchemaLoader with any required parameter empty fails
fatally at construction (the constructor panics, modelled as
`Except.error`); with all three parameters non-empty it succeeds, the cache
starts empty, and the parameters are retrievable through the accessors. -/
theorem schema_loader_new_check (schema_root domain version : String) :
    ((schema_root.isEmpty || domain.isEmpty || version.isEmpty) = true →
      SchemaLoader.new schema_root domain version =
        Except.error "Schema root, domain, and version must be specified.") ∧
    ((schema_root.isEmpty || domain.isEmpty || version.isEmpty) = false →
      ∃ loader, SchemaLoader.new schema_root domain version = Except.ok loader ∧
        loader.schema_cache = [] ∧ loader.get_schema_root = schema_root ∧
        loader.get_domain = domain ∧ loader.get_version = version) := by
  constructor
  · intro h
    simp [SchemaLoader.new, h]
  · intro h
    exact ⟨⟨[], schema_root, domain, version⟩,
      by simp [SchemaLoader.new, h], rfl, rfl, rfl, rfl⟩

/-- C9 (witness): the constructor theorem instantiated at an empty root
(fatal) and at the repository's own construction parameters (success). -/
theorem schema_loader_new_check_w :
    SchemaLoader.new "" "bees" "v1" =
      Except.error "Schema root, domain, and version must be specified." ∧
    (∃ loader, SchemaLoader.new "schemas" "bees" "v1" = Except.ok loader ∧
      loader.schema_cache = [] ∧ loader.get_schema_root = "schemas" ∧
      loader.get_domain = "bees" ∧ loader.get_version = "v1") :=
  ⟨(schema_loader_new_check "" "bees" "v1").1 rfl,
    (schema_loader_new_check "schemas" "bees" "v1").2 rfl⟩

/-- C10: `ValidationResult::failure` always sets valid to false, so
`failure []` yields valid = false with an empty error list, violating the
`valid == errors.is_empty()` invariant at the public constructor surface;
`ValidationResult::new` builds any combination; and `error_message` on the
invalid-but-error-free result reports "Validation successful". -/
theorem validation_result_constructor_unsoundness :
    (∀ errors, (ValidationResult.failure errors).valid = false) ∧
    (ValidationResult.failure []).valid = false ∧
    (ValidationResult.failure []).errors = [] ∧
    ((ValidationResult.failure []).valid =
      (ValidationResult.failure []).errors.isEmpty → False) ∧
    (∀ (v : Bool) (e : List String),
      (ValidationResult.new v e).valid = v ∧ (ValidationResult.new v e).errors = e) ∧
    (ValidationResult.failure []).error_message = "Validation successful" :=
  ⟨fun _ => rfl, rfl, rfl, fun h => absurd h (by decide), fun _ _ => ⟨rfl, rfl⟩, rfl⟩

/-- C10 (witness): the invariant-violation consequence extracted from the
constructor theorem at the concrete empty error list. -/
theorem validation_result_constructor_unsoundness_w :
    (ValidationResult.failure []).valid = false ∧
    (ValidationResult.failure []).error_message = "Validation successful" :=
  ⟨validation_result_constructor_unsoundness.2.1,
    validation_result_constructor_unsoundness.2.2.2.2.2⟩

/-- C4: when the header identity fields are not all empty, each of the
configured identity fields (category, name, version) is checked for
emptiness independently, one distinct error per empty field, with no
short-circuiting: any successful result's error list starts with exactly
the per-field errors of the empty fields, in order. -/
theorem validate_header_field_checks (l : SchemaLoader) (S : SchemaSource)
    (e : Envelope) (r : ValidationResult) (l2 : SchemaLoader)
    (hne : (e.header.schema_category.isEmpty && e.header.schema_name.isEmpty
      && e.header.schema_version.isEmpty) = false)
    (hok : validate l S e = Except.ok (r, l2)) :
    (∃ rest, r.errors =
      (if e.header.schema_category.isEmpty then
        ["Schema category is required in header"] else [])
      ++ (if e.header.schema_name.isEmpty then
        ["Schema name is required in header"] else [])
      ++ (if e.header.schema_version.isEmpty then
        ["Schema version is required in header"] else [])
      ++ rest) ∧
    List.Pairwise (fun a b => a ≠ b)
      ["Schema category is required in header",
        "Schema name is required in header",
        "Schema version is required in header"] := by
  refine ⟨?_, by decide⟩
  unfold validate at hok
  split at hok
  · rename_i hcond
    rw [hne] at hcond
    exact absurd hcond (by decide)
  · set A := (if e.header.schema_category.isEmpty then
      ["Schema category is required in header"] else ([] : List String)) with hA
    set B := (if e.header.schema_name.isEmpty then
      ["Schema name is required in header"] else ([] : List String)) with hB
    set C := (if e.header.schema_version.isEmpty then
      ["Schema version is required in header"] else ([] : List String)) with hC
    split at hok
    · split at hok
      · simp only [Except.ok.injEq, Prod.mk.injEq] at hok
        obtain ⟨hr, -⟩ := hok
        subst hr
        exact ⟨_, rfl⟩
      · exact absurd hok (by simp)
    · simp only [Except.ok.injEq, Prod.mk.injEq] at hok
      obtain ⟨hr, -⟩ := hok
      subst hr
      exact ⟨[], by simp [ValidationResult.new]⟩

/-- C4 (witness): the per-field check theorem instantiated at an envelope
with empty name and version but non-empty category: both corresponding
errors are accumulated, nothing short-circuits. -/
theorem validate_header_field_checks_w :
    (∃ rest,
      (ValidationResult.new false ["Schema name is required in header",
        "Schema version is required in header"]).errors =
      (if partialHeaderEnvelope.header.schema_category.isEmpty then
        ["Schema category is required in header"] else [])
      ++ (if partialHeaderEnvelope.header.schema_name.isEmpty then
        ["Schema name is required in header"] else [])
      ++ (if partialHeaderEnvelope.header.schema_version.isEmpty then
        ["Schema version is required in header"] else [])
      ++ rest) ∧
    List.Pairwise (fun a b => a ≠ b)
      ["Schema category is required in header",
        "Schema name is required in header",
        "Schema version is required in header"] :=
  validate_header_field_checks exampleLoader emptySource partialHeaderEnvelope
    (ValidationResult.new false ["Schema name is required in header",
      "Schema version is required in header"]) exampleLoader rfl rfl

/-- C5: every ValidationResult actually returned by `validate` (when it
returns at all) and by `validate_data` satisfies the invariant that the
valid flag equals the emptiness of the accumulated error list. -/
theorem validation_results_invariant :
    (∀ (l : SchemaLoader) (S : SchemaSource) (e : Envelope)
      (r : ValidationResult) (l2 : SchemaLoader),
      validate l S e = Except.ok (r, l2) → r.valid = r.errors.isEmpty) ∧
    (∀ d s : Value,
      (validate_data d s).valid = (validate_data d s).errors.isEmpty) := by
  constructor
  · intro l S e r l2 hok
    unfold validate at hok
    split at hok
    · simp only [Except.ok.injEq, Prod.mk.injEq] at hok
      obtain ⟨hr, -⟩ := hok
      subst hr
      rfl
    · set A := (if e.header.schema_category.isEmpty then
        ["Schema category is required in header"] else ([] : List String)) with hA
      set B := (if e.header.schema_name.isEmpty then
        ["Schema name is required in header"] else ([] : List String)) with hB
      set C := (if e.header.schema_version.isEmpty then
        ["Schema version is required in header"] else ([] : List String)) with hC
      split at hok
      · split at hok
        · simp only [Except.ok.injEq, Prod.mk.injEq] at hok
          obtain ⟨hr, -⟩ := hok
          subst hr
          rfl
        · exact absurd hok (by simp)
      · simp only [Except.ok.injEq, Prod.mk.injEq] at hok
        obtain ⟨hr, -⟩ := hok
        subst hr
        rfl
  · intro d s
    rfl

/-- C5 (witness): the invariant instantiated at a concrete `validate` call
returning the header-is-required result. -/
theorem validation_results_invariant_w :
    (ValidationResult.new false ["Header is required"]).valid =
      (ValidationResult.new false ["Header is required"]).errors.isEmpty :=
  validation_results_invariant.1 exampleLoader emptySource emptyHeaderEnvelope
    (ValidationResult.new false ["Header is required"]) exampleLoader rfl

/-- C8: property type-checking is shallow and non-recursive: a property
declared with type object is satisfied by any keyed structure whatever its
internal fields; a property declared but absent from the data produces no
error; and the check on an object value never depends on the object's own
fields. -/
theorem validate_property_type_shallow (d : Value) (p : String) (ps : Value) :
    (∀ fields, ps.get "type" = some (Value.str "object") →
      d.get p = some (Value.obj fields) → validate_property_type d p ps = []) ∧
    (d.get p = none → validate_property_type d p ps = []) ∧
    (∀ et f1 f2, validate_type (Value.obj f1) et = validate_type (Value.obj f2) et) := by
  refine ⟨?_, ?_, ?_⟩
  · intro fields h1 h2
    simp [validate_property_type, h1, h2, Value.as_str, validate_type,
      Value.is_object]
  · intro h
    unfold validate_property_type
    rcases hpt : ps.get "type" with _ | pt
    · simp [hpt]
    · simp only [hpt]
      rcases hes : pt.as_str with _ | et
      · simp [hes]
      · simp [hes, h]
  · intro et f1 f2
    unfold validate_type
    split <;> rfl

/-- C8 (witness): a property declared with type object accepts a nested
keyed structure without inspecting its internal fields. -/
theorem validate_property_type_shallow_w :
    validate_property_type
      (Value.obj [("a", Value.obj [("x", Value.num 1)])]) "a"
      (Value.obj [("type", Value.str "object")]) = [] :=
  (validate_property_type_shallow
    (Value.obj [("a", Value.obj [("x", Value.num 1)])]) "a"
    (Value.obj [("type", Value.str "object")])).1 [("x", Value.num 1)] rfl rfl

/-- C6 (counterexample): the missing-required-field error the code produces
is capitalised ("Required field missing: id"), not the claimed lower-case
"required field missing: id". -/
theorem required_missing_message_case :
    validate_data (Value.obj []) requiredIdSchema =
      ValidationResult.new false ["Required field missing: id"] ∧
    ("Required field missing: id" : String) ≠ "required field missing: id" :=
  ⟨rfl, by decide⟩

/-- C6 (amended): for every data value and schema whose required list
contains the field-name string f, `validate_data` reports
"Required field missing: f" exactly when the data lacks a top-level field
named f; in particular the empty object against the required-id schema is
invalid with exactly that error, and an object carrying id is valid with an
empty error list. -/
theorem validate_data_required_check (d s : Value) (req : List Value) (f : String)
    (hreq : s.get "required" = some (Value.arr req)) (hf : Value.str f ∈ req) :
    (("Required field missing: " ++ f) ∈ (validate_data d s).errors ↔
      d.get f = none) ∧
    validate_data (Value.obj []) requiredIdSchema =
      ValidationResult.new false ["Required field missing: id"] ∧
    validate_data (Value.obj [("id", Value.str "1")]) requiredIdSchema =
      ValidationResult.new true [] := by
  refine ⟨⟨?_, ?_⟩, rfl, rfl⟩
  · intro h
    have herr : ("Required field missing: " ++ f) ∈
        validate_required_fields d s ++ validate_type_schema d s
          ++ validate_properties d s := h
    rcases List.mem_append.1 herr with h1 | h2
    · rcases List.mem_append.1 h1 with hR | hT
      · rcases mem_validate_required_fields hR with ⟨g, hg, hget⟩
        rw [string_append_left_cancel hg]
        exact hget
      · rcases mem_validate_type_schema hT with ⟨et, he⟩
        exact absurd he (string_append_ne_of_index _ _ _ _ 0
          (by decide) (by decide) (by decide))
    · rcases mem_validate_properties h2 with ⟨rest, he⟩
      exact absurd he (string_append_ne_of_index _ _ _ _ 0
        (by decide) (by decide) (by decide))
  · intro h
    have hmem : ("Required field missing: " ++ f) ∈
        validate_required_fields d s := by
      unfold validate_required_fields
      simp only [hreq, Value.as_array]
      apply List.mem_filterMap.2
      refine ⟨Value.str f, hf, ?_⟩
      simp [Value.as_str, h]
    exact List.mem_append.2 (Or.inl (List.mem_append.2 (Or.inl hmem)))

/-- C6 (witness): the required-field characterisation instantiated at the
empty object and the required-id schema. -/
theorem validate_data_required_check_w :
    (("Required field missing: " ++ "id") ∈
      (validate_data (Value.obj []) requiredIdSchema).errors ↔
      (Value.obj []).get "id" = none) ∧
    validate_data (Value.obj []) requiredIdSchema =
      ValidationResult.new false ["Required field missing: id"] ∧
    validate_data (Value.obj [("id", Value.str "1")]) requiredIdSchema =
      ValidationResult.new true [] :=
  validate_data_required_check (Value.obj []) requiredIdSchema
    [Value.str "id"] "id" rfl (List.mem_singleton.2 rfl)

/-- C7 (counterexample): the top-level type-mismatch error the code
produces is "Invalid type. Expected: array"; the claimed string
"invalid type, expected: array" never appears in the result. -/
theorem invalid_type_message_case :
    validate_data (Value.obj [("id", Value.str "1")])
        (Value.obj [("type", Value.str "array")]) =
      ValidationResult.new false ["Invalid type. Expected: array"] ∧
    "invalid type, expected: array" ∉
      (validate_data (Value.obj [("id", Value.str "1")])
        (Value.obj [("type", Value.str "array")])).errors :=
  ⟨rfl, by decide⟩

/-- C7 (amended): when the schema declares a top-level string type,
`validate_data` reports "Invalid type. Expected: t" exactly when the
immediate kind of the data fails the code's six-type mapping
(`validate_type`); any declared type outside the six known strings is
always satisfied; and the array example yields exactly that error. -/
theorem validate_data_type_check (d s : Value) (et : String)
    (ht : s.get "type" = some (Value.str et)) :
    (("Invalid type. Expected: " ++ et) ∈ (validate_data d s).errors ↔
      validate_type d et = false) ∧
    (et ∉ (["object", "array", "string", "number", "boolean", "null"] : List String) →
      validate_type d et = true) ∧
    validate_data (Value.obj [("id", Value.str "1")])
        (Value.obj [("type", Value.str "array")]) =
      ValidationResult.new false ["Invalid type. Expected: array"] := by
  refine ⟨⟨?_, ?_⟩, ?_, rfl⟩
  · intro h
    have herr : ("Invalid type. Expected: " ++ et) ∈
        validate_required_fields d s ++ validate_type_schema d s
          ++ validate_properties d s := h
    rcases List.mem_append.1 herr with h1 | h2
    · rcases List.mem_append.1 h1 with hR | hT
      · rcases mem_validate_required_fields hR with ⟨g, hg, -⟩
        exact absurd hg.symm (string_append_ne_of_index _ _ _ _ 0
          (by decide) (by decide) (by decide))
      · unfold validate_type_schema at hT
        simp only [ht, Value.as_str] at hT
        rcases hv : validate_type d et
        · rfl
        · simp [hv] at hT
    · rcases mem_validate_properties h2 with ⟨rest, he⟩
      exact absurd he (string_append_ne_of_index _ _ _ _ 12
        (by decide) (by decide) (by decide))
  · intro hv
    have hmem : ("Invalid type. Expected: " ++ et) ∈ validate_type_schema d s := by
      unfold validate_type_schema
      simp [ht, Value.as_str, hv]
    exact List.mem_append.2 (Or.inl (List.mem_append.2 (Or.inr hmem)))
  · intro hnot
    unfold validate_type
    split <;> simp_all

/-- C7 (witness): the type-check characterisation instantiated at the
object-against-array example. -/
theorem validate_data_type_check_w :
    (("Invalid type. Expected: " ++ "array") ∈
      (validate_data (Value.obj [("id", Value.str "1")])
        (Value.obj [("type", Value.str "array")])).errors ↔
      validate_type (Value.obj [("id", Value.str "1")]) "array" = false) ∧
    ("array" ∉ (["object", "array", "string", "number", "boolean", "null"] : List String) →
      validate_type (Value.obj [("id", Value.str "1")]) "array" = true) ∧
    validate_data (Value.obj [("id", Value.str "1")])
        (Value.obj [("type", Value.str "array")]) =
      ValidationResult.new false ["Invalid type. Expected: array"] :=
  validate_data_type_check (Value.obj [("id", Value.str "1")])
    (Value.obj [("type", Value.str "array")]) "array" rfl

end Pacts
